import Mathlib

set_option maxHeartbeats 1000000

/-!
Shallow embedding of the Mugard text-adventure engine (`src/game.js`,
class `MugardGame`) and a verification of the frozen claims about it.

Modelling conventions:
- JS strings are `String`; JS string fields that may be `undefined` are
  `Option String`.
- JS objects used as string-keyed dictionaries (`state.rooms`,
  `state.objects`, `state.characters`, `state.flags`, `gameData.events`,
  `room.exits`, `vocabulary.verbs`) are association lists
  `List (String × _)` in insertion order; `Object.entries` /
  `Object.keys` iteration order is the list order.
- DOM output (`print`, `printDialogue`, `printPlayerInput`) is modelled
  as an emitted list of `Line` values; purely presentational effects
  (scrolling, panels, audio) are dropped.
- A result of `none` from a state-transition function models an uncaught
  JS `TypeError` (reading a property of `undefined`); partial mutations
  performed before the throw are not tracked.
- `setTimeout(f, 500)` pacing delays are collapsed: the scheduled call is
  applied synchronously where the source schedules it (`endEvent`'s
  follow-on `triggerEvent`); `triggerEvent`'s delayed first
  `advanceEvent` is left to the next `advanceEvent` call.
-/

namespace Mugard

/-- JS truthiness of a string-or-undefined value: `undefined` and `""` are falsy. -/
def strTruthy : Option String → Bool
  | none => false
  | some s => s != ""

/-- JS `x || y` where `x` is a string-or-undefined and `y` a string default. -/
def orStr (x : Option String) (y : String) : String :=
  match x with
  | none => y
  | some s => if s = "" then y else s

/-- JS `str.toLowerCase()` (ASCII case mapping, which covers the engine's
vocabulary), implemented structurally over the character list so that
concrete terms reduce in the kernel. -/
def strLower (s : String) : String :=
  String.mk (s.data.map Char.toLower)

/-- JS `str.trim()`: drop leading and trailing whitespace. -/
def strTrim (s : String) : String :=
  String.mk ((s.data.dropWhile Char.isWhitespace).reverse.dropWhile
    Char.isWhitespace).reverse

/-- Split a character list at every whitespace character, keeping empty
fields (the semantics of splitting on a single-character separator). -/
def splitChars : List Char → List (List Char)
  | [] => [[]]
  | c :: rest =>
    let r := splitChars rest
    if c.isWhitespace then [] :: r
    else
      match r with
      | [] => [[c]]
      | w :: ws => (c :: w) :: ws

/-- JS `str.split(/\s+/)`: split on runs of whitespace.  The empty string
yields `[""]`, and leading (resp. trailing) whitespace contributes a leading
(resp. trailing) empty field. -/
def jsSplitWs (s : String) : List String :=
  match s.data with
  | [] => [""]
  | c :: _ =>
    (if c.isWhitespace then [""] else [])
      ++ ((splitChars s.data).filter (fun w => !w.isEmpty)).map String.mk
      ++ (if (s.data.getLastD ' ').isWhitespace then [""] else [])

/-- JS `s.includes(sub)` over character lists: `sub` occurs as a contiguous
subsequence (the empty string is contained in every string). -/
def containsSeq (sub : List Char) : List Char → Bool
  | [] => sub.isEmpty
  | c :: t => sub.isPrefixOf (c :: t) || containsSeq sub t

/-- JS `s.includes(sub)`: substring containment. -/
def strIncludes (s sub : String) : Bool :=
  containsSeq sub.data s.data

/-- `capitalize` from the source: `str.charAt(0).toUpperCase() + str.slice(1)`. -/
def capitalize (s : String) : String :=
  match s.data with
  | [] => ""
  | c :: cs => String.mk (c.toUpper :: cs)

/-- In-place JS mutation of the value stored at an already-present key of a
string-keyed dictionary (the source always mutates a value it just looked up). -/
def updateAssoc (l : List (String × β)) (k : String) (v : β) : List (String × β) :=
  l.map (fun p => if p.1 = k then (p.1, v) else p)

/-- JS property assignment `obj[k] = v`: update the key if present, else append it. -/
def setProp (l : List (String × β)) (k : String) (v : β) : List (String × β) :=
  if (l.lookup k).isSome then updateAssoc l k v else l ++ [(k, v)]

/-! ## Data model (`gameData.json` shape as consumed by `game.js`) -/

/-- An object (item): entry of `state.objects`. -/
structure Obj where
  id : String
  name : String
  description : String
  onExamine : Option String
  onTake : Option String
  canTake : Bool
  location : String
deriving DecidableEq

/-- A character: entry of `state.characters`.  The `dialogue` object is
flattened to its two keys read by the source (`default` and `party`). -/
structure Character where
  id : String
  name : String
  description : String
  dialogueDefault : Option String
  dialogueParty : Option String
  language : Option String
deriving DecidableEq

/-- A room: entry of `state.rooms`. -/
structure Room where
  id : String
  name : String
  description : String
  onFirstVisit : Option String
  exits : List (String × String)
  objects : List String
  characters : List String
  triggersEvent : Option String
  firstVisit : Bool
deriving DecidableEq

/-- The player record. -/
structure Player where
  location : String
  inventory : List String
deriving DecidableEq

/-- One step of a scripted event sequence. -/
inductive Step where
  | narration (text : String)
  | dialogue (character : String) (text : String) (language : Option String)
deriving DecidableEq

/-- A scripted event: entry of `gameData.events`. -/
structure GameEvent where
  sequence : List Step
deriving DecidableEq

/-- The static vocabulary (`gameData.vocabulary`). -/
structure Vocabulary where
  articles : List String
  prepositions : List String
  verbs : List (String × List String)
deriving DecidableEq

/-- The static game data read by the engine after load (`this.gameData`). -/
structure GameData where
  vocabulary : Vocabulary
  events : List (String × GameEvent)
deriving DecidableEq

/-- The mutable session state (`this.state`). -/
structure GameState where
  player : Player
  flags : List (String × Bool)
  rooms : List (String × Room)
  characters : List (String × Character)
  objects : List (String × Obj)
deriving DecidableEq

/-- The whole interpreter instance: static data, session state, and the
sequencer / lifecycle fields stored directly on `this`. -/
structure Game where
  gameData : GameData
  state : GameState
  gameStarted : Bool
  eventQueue : List Step
  currentEventIndex : Nat
  inEvent : Bool
deriving DecidableEq

/-- A display request emitted to the presentation layer. -/
inductive Line where
  | msg (text : String) (kind : String)
  | playerEcho (text : String)
  | dialogue (speaker : String) (text : String) (language : String)
deriving DecidableEq

/-- The display kind of an emitted line (`print`'s `type` argument;
`printPlayerInput` and `printDialogue` use fixed CSS classes). -/
def lineKind : Line → String
  | Line.msg _ kind => kind
  | Line.playerEcho _ => "playerEcho"
  | Line.dialogue _ _ _ => "dialogue"

/-- `printDialogue(speaker, text, language = 'mugard')`. -/
def printDialogue (speaker text : String) (language : Option String) : Line :=
  Line.dialogue speaker text (language.getD "mugard")

/-! ## Parser -/

/-- The structured command produced by `parse`. -/
structure Command where
  verb : Option String
  noun : Option String
  indirect : Option String
  raw : String
deriving DecidableEq

/-- The hard-coded direction word list of `parse`. -/
def directions : List String :=
  ["north", "south", "east", "west", "n", "s", "e", "w"]

/-- The inner loop of the verb scan: first verb key (in definition order)
whose synonym list contains the token. -/
def findVerbIn (verbs : List (String × List String)) (tok : String) :
    Option String :=
  (verbs.find? (fun p => p.2.contains tok)).map (fun p => p.1)

/-- The outer loop of the verb scan: first token (left to right, reporting its
index) that matches any verb's synonym list. -/
def scanVerb (verbs : List (String × List String)) :
    List String → Nat → Option (String × Nat)
  | [], _ => none
  | t :: ts, i =>
    match findVerbIn verbs t with
    | some vk => some (vk, i)
    | none => scanVerb verbs ts (i + 1)

/-- Tokenization phase of `parse`: lowercase, trim, split on whitespace, drop
articles. -/
def filteredWords (vocab : Vocabulary) (input : String) : List String :=
  (jsSplitWs (strTrim (strLower input))).filter (fun w => !vocab.articles.contains w)

/-- Noun-phrase phase of `parse`: drop prepositions from the remaining words
and join with single spaces; an empty result is `null`. -/
def nounFrom (vocab : Vocabulary) (remaining : List String) : Option String :=
  let nounWords := remaining.filter (fun w => !vocab.prepositions.contains w)
  if nounWords.isEmpty then none else some (String.intercalate " " nounWords)

/-- `parse(input)`: free text to structured command.  Reads only
`gameData.vocabulary` from the instance. -/
def parse (g : Game) (input : String) : Command :=
  let vocab := g.gameData.vocabulary
  let filtered := filteredWords vocab input
  if filtered.isEmpty then
    { verb := none, noun := none, indirect := none, raw := input }
  else
    match scanVerb vocab.verbs filtered 0 with
    | some (vk, i) =>
      { verb := some vk, noun := nounFrom vocab (filtered.drop (i + 1)),
        indirect := none, raw := input }
    | none =>
      if directions.contains (filtered.headD "") then
        { verb := some "go", noun := nounFrom vocab filtered,
          indirect := none, raw := input }
      else
        { verb := none, noun := nounFrom vocab filtered,
          indirect := none, raw := input }

/-! ## Target resolution -/

/-- `matchesNoun(name, noun)`: case-insensitive exact, substring, or
whole-word match. -/
def matchesNoun (name noun : String) : Bool :=
  let nameLower := strLower name
  let nounLower := strLower noun
  if nameLower = nounLower then true
  else if strIncludes nameLower nounLower then true
  else if (jsSplitWs nameLower).contains nounLower then true
  else false

/-- A resolved target: the JS `{ type, item }` record, together with the
dictionary key under which the item was found (the JS object reference, used
for write-back). -/
inductive Target where
  | object (key : String) (item : Obj)
  | character (key : String) (item : Character)
deriving DecidableEq

/-- `findTarget(noun)`: room objects, then inventory objects, then room
characters; first match wins.  The outer `none` models the JS crash when the
player's location names no room; `some none` is a returned `null`. -/
def findTarget (s : GameState) (noun : String) : Option (Option Target) :=
  match s.rooms.lookup s.player.location with
  | none => none
  | some room =>
    match room.objects.findSome? (fun objId =>
        match s.objects.lookup objId with
        | some obj =>
          if matchesNoun obj.name noun then some (Target.object objId obj)
          else none
        | none => none) with
    | some t => some (some t)
    | none =>
      match s.player.inventory.findSome? (fun objId =>
          match s.objects.lookup objId with
          | some obj =>
            if matchesNoun obj.name noun then some (Target.object objId obj)
            else none
          | none => none) with
      | some t => some (some t)
      | none =>
        match room.characters.findSome? (fun charId =>
            match s.characters.lookup charId with
            | some ch =>
              if matchesNoun ch.name noun then some (Target.character charId ch)
              else none
            | none => none) with
        | some t => some (some t)
        | none => some none

/-- `findInInventory(noun)`: same name matching, restricted to the inventory
list; returns the matching object identifier. -/
def findInInventory (s : GameState) (noun : String) : Option String :=
  s.player.inventory.findSome? (fun objId =>
    match s.objects.lookup objId with
    | some obj => if matchesNoun obj.name noun then some objId else none
    | none => none)

/-! ## Event sequencer -/

/-- `triggerEvent(eventId)`: an unknown event identifier does nothing;
otherwise enter the InSequence mode with the event's step list and a zero
cursor.  The delayed first `advanceEvent()` (a 500 ms `setTimeout`) is not
folded in: it is the next `advanceEvent` call on the returned state. -/
def triggerEvent (g : Game) (eventId : String) : Game :=
  match g.gameData.events.lookup eventId with
  | none => g
  | some ev =>
    { g with inEvent := true, eventQueue := ev.sequence, currentEventIndex := 0 }

/-- `endEvent()`: return to Idle, then (collapsing the 500 ms delay) chain the
`revelation` event when `partyStarted` is set and `revelationHeard` is not. -/
def endEvent (g : Game) : Game :=
  let g1 : Game := { g with inEvent := false, eventQueue := [], currentEventIndex := 0 }
  if (g1.state.flags.lookup "partyStarted").getD false
      && !((g1.state.flags.lookup "revelationHeard").getD false) then
    triggerEvent g1 "revelation"
  else g1

/-- `advanceEvent()`: past the end, end the sequence; otherwise render the
step at the cursor and advance it, appending the continue prompt when steps
remain and ending the sequence otherwise.  A dialogue step whose character
identifier names no existing character is the JS crash
(`char.name` of `undefined`), modelled as `none`. -/
def advanceEvent (g : Game) : Option (Game × List Line) :=
  if g.currentEventIndex ≥ g.eventQueue.length then
    some (endEvent g, [])
  else
    match g.eventQueue.get? g.currentEventIndex with
    | none => some (endEvent g, [])
    | some step =>
      let g1 : Game := { g with currentEventIndex := g.currentEventIndex + 1 }
      let stepLines : Option (List Line) :=
        match step with
        | Step.narration text => some [Line.msg text "narration"]
        | Step.dialogue chId text lang =>
          match g.state.characters.lookup chId with
          | none => none
          | some ch => some [printDialogue ch.name text lang]
      match stepLines with
      | none => none
      | some lines =>
        if g1.currentEventIndex < g1.eventQueue.length then
          some (g1, lines ++
            [Line.msg "<em class=\"continue-prompt\">(Press Enter to continue...)</em>" "narration"])
        else
          some (endEvent g1, lines)

/-! ## Room display -/

/-- `showRoom(isNewRoom)`: print the room title, the first-visit text (once,
when present and the room is unvisited) or the description, the object and
character call-outs on arrival, and the exits; then fire and clear the room's
pending event trigger.  `none` models the JS crash when the player's location
names no room. -/
def showRoom (g : Game) (isNewRoom : Bool) : Option (Game × List Line) :=
  match g.state.rooms.lookup g.state.player.location with
  | none => none
  | some room =>
    let titleLine := Line.msg ("<div class=\"room-title\">" ++ room.name ++ "</div>") "narration"
    let firstVisitBranch := room.firstVisit && strTruthy room.onFirstVisit
    let descLine :=
      if firstVisitBranch then Line.msg (room.onFirstVisit.getD "") "narration"
      else Line.msg room.description "narration"
    let room2 := if firstVisitBranch then { room with firstVisit := false } else room
    let flags2 :=
      if firstVisitBranch then
        let flagName := "visited" ++ capitalize room.id
        if (g.state.flags.lookup flagName).isSome then setProp g.state.flags flagName true
        else g.state.flags
      else g.state.flags
    let roomObjects := room2.objects.filterMap (fun id => g.state.objects.lookup id)
    let objLines :=
      if !roomObjects.isEmpty && isNewRoom then
        let objNames := roomObjects.map (fun o => o.name)
        if objNames.length == 1 then
          [Line.msg ("You notice a " ++ objNames.headD "" ++ " here.") "narration"]
        else
          [Line.msg ("You notice: " ++ String.intercalate ", " objNames ++ ".") "narration"]
      else []
    let roomChars := room2.characters.filterMap (fun id => g.state.characters.lookup id)
    let charLines :=
      if !roomChars.isEmpty && isNewRoom then
        roomChars.map (fun ch =>
          Line.msg (orStr ch.dialogueDefault (ch.name ++ " is here.")) "narration")
      else []
    let exitKeys := room2.exits.map (fun p => p.1)
    let exitLines :=
      if !exitKeys.isEmpty then
        [Line.msg ("<div class=\"exits\">Exits: <span>" ++ String.intercalate ", " exitKeys
          ++ "</span></div>") "narration"]
      else []
    let fired := strTruthy room2.triggersEvent && room2.firstVisit == false
    let room3 := if fired then { room2 with triggersEvent := none } else room2
    let g2 : Game := { g with state :=
      { g.state with
        rooms := updateAssoc g.state.rooms g.state.player.location room3,
        flags := flags2 } }
    let g3 := if fired then triggerEvent g2 (room2.triggersEvent.getD "") else g2
    some (g3, [titleLine, descLine] ++ objLines ++ charLines ++ exitLines)

/-! ## Command executor -/

/-- Inventory-panel refresh (`updateInventoryDisplay`): no observable output in
this model, but its `state.objects[id].name` reads crash on a held identifier
that names no object, so the names list is `none` in that case. -/
def inventoryNames (s : GameState) : Option (List String) :=
  s.player.inventory.mapM (fun id => (s.objects.lookup id).map (fun o => o.name))

/-- Direction normalization of `doGo`: `dirMap[direction] || direction` over
the literal table mapping n/s/e/w to the full words. -/
def normalizeDir (d : String) : String :=
  if d = "n" then "north"
  else if d = "s" then "south"
  else if d = "e" then "east"
  else if d = "w" then "west"
  else d

/-- `doGo(direction)`: normalize the one-letter abbreviation, reject a missing
direction, reject an absent exit with "You can't go that way.", otherwise move
the player and redisplay the room as a new arrival. -/
def doGo (g : Game) (direction : Option String) : Option (Game × List Line) :=
  let direction := direction.map normalizeDir
  let roomOpt := g.state.rooms.lookup g.state.player.location
  if !strTruthy direction then
    some (g, [Line.msg ("Which direction? Try <strong>north</strong>, <strong>south</strong>, "
      ++ "<strong>east</strong>, or <strong>west</strong>.") "error"])
  else
    match roomOpt with
    | none => none
    | some room =>
      let target := room.exits.lookup (direction.getD "")
      if !strTruthy target then
        some (g, [Line.msg "You can't go that way." "narration"])
      else
        showRoom { g with state :=
          { g.state with player :=
            { g.state.player with location := target.getD "" } } } true

/-- `doLook(noun)`: without a noun, a quiet room redisplay; with one, resolve
it and show the description (plus examine text for objects). -/
def doLook (g : Game) (noun : Option String) : Option (Game × List Line) :=
  if !strTruthy noun then
    showRoom g false
  else
    match findTarget g.state (noun.getD "") with
    | none => none
    | some (some (Target.object _ obj)) =>
      some (g, [Line.msg obj.description "narration"]
        ++ (if strTruthy obj.onExamine then [Line.msg (obj.onExamine.getD "") "narration"]
            else []))
    | some (some (Target.character _ ch)) =>
      some (g, [Line.msg ch.description "narration"])
    | some none =>
      some (g, [Line.msg "You don't see that here." "error"])

/-- `doTake(noun)`: resolve via the general resolver; reject a missing noun,
a null resolution or a character, and a non-takeable object; otherwise append
the object to the inventory, mark its location `"inventory"`, remove it from
the current room's object list, and print the take text. -/
def doTake (g : Game) (noun : Option String) : Option (Game × List Line) :=
  if !strTruthy noun then
    some (g, [Line.msg "Take what?" "error"])
  else
    match findTarget g.state (noun.getD "") with
    | none => none
    | some targetOpt =>
      match targetOpt with
      | some (Target.object key obj) =>
        if !obj.canTake then
          some (g, [Line.msg "You can't take that." "narration"])
        else
          match g.state.rooms.lookup g.state.player.location with
          | none => none
          | some room =>
            let room2 := { room with objects := room.objects.filter (fun id => id != obj.id) }
            let s2 : GameState :=
              { g.state with
                player := { g.state.player with
                  inventory := g.state.player.inventory ++ [obj.id] },
                objects := updateAssoc g.state.objects key { obj with location := "inventory" },
                rooms := updateAssoc g.state.rooms g.state.player.location room2 }
            let takeLine :=
              if strTruthy obj.onTake then Line.msg (obj.onTake.getD "") "narration"
              else Line.msg ("You take the " ++ obj.name ++ ".") "narration"
            if (inventoryNames s2).isSome then some ({ g with state := s2 }, [takeLine])
            else none
      | _ =>
        some (g, [Line.msg "You don't see that here." "error"])

/-- `doDrop(noun)`: resolve strictly via the inventory-only resolver; on
success remove the identifier from the inventory, append it to the current
room's object list, and point the object's location at the room. -/
def doDrop (g : Game) (noun : Option String) : Option (Game × List Line) :=
  if !strTruthy noun then
    some (g, [Line.msg "Drop what?" "error"])
  else
    let itemIdOpt := findInInventory g.state (noun.getD "")
    if !strTruthy itemIdOpt then
      some (g, [Line.msg "You're not carrying that." "error"])
    else
      let itemId := itemIdOpt.getD ""
      match g.state.objects.lookup itemId with
      | none => none
      | some item =>
        match g.state.rooms.lookup g.state.player.location with
        | none => none
        | some room =>
          let room2 := { room with objects := room.objects ++ [itemId] }
          let s2 : GameState :=
            { g.state with
              player := { g.state.player with
                inventory := g.state.player.inventory.filter (fun id => id != itemId) },
              rooms := updateAssoc g.state.rooms g.state.player.location room2,
              objects := updateAssoc g.state.objects itemId
                { item with location := g.state.player.location } }
          if (inventoryNames s2).isSome then
            some ({ g with state := s2 },
              [Line.msg ("You drop the " ++ item.name ++ ".") "narration"])
          else none

/-- `doInventory()`: list held item names (crashing on a dangling identifier),
or report an empty inventory. -/
def doInventory (g : Game) : Option (Game × List Line) :=
  if g.state.player.inventory.length == 0 then
    some (g, [Line.msg "You're not carrying anything." "narration"])
  else
    match inventoryNames g.state with
    | none => none
    | some names =>
      some (g, [Line.msg ("You are carrying: " ++ String.intercalate ", " names) "narration"])

/-- `getDialogue(character)`: party dialogue when the `partyStarted` flag is
set and the character has one, else the default dialogue. -/
def getDialogue (s : GameState) (ch : Character) : Option String :=
  if (s.flags.lookup "partyStarted").getD false && strTruthy ch.dialogueParty then
    ch.dialogueParty
  else ch.dialogueDefault

/-- `doTalk(noun)`: only characters are valid targets; emit their selected
dialogue.  A missing dialogue string is rendered by JS as `"undefined"`. -/
def doTalk (g : Game) (noun : Option String) : Option (Game × List Line) :=
  if !strTruthy noun then
    some (g, [Line.msg "Talk to whom?" "error"])
  else
    match findTarget g.state (noun.getD "") with
    | none => none
    | some (some (Target.character _ ch)) =>
      some (g, [printDialogue ch.name ((getDialogue g.state ch).getD "undefined") ch.language])
    | some _ =>
      some (g, [Line.msg "You don't see anyone like that here." "error"])

/-- `doUse(noun)`: a deliberate stub. -/
def doUse (g : Game) (noun : Option String) : Game × List Line :=
  if !strTruthy noun then (g, [Line.msg "Use what?" "error"])
  else (g, [Line.msg "You're not sure how to use that right now." "narration"])

/-- `doHelp()`: the static command reference. -/
def doHelp (g : Game) : Game × List Line :=
  (g, [Line.msg ("<div class=\"room-title\">Available Commands</div>"
    ++ "<p><strong>Movement:</strong> go north, south, east, west (or just n, s, e, w)</p>"
    ++ "<p><strong>Look:</strong> look (examine room) or look at [something]</p>"
    ++ "<p><strong>Take:</strong> take [object] or get [object]</p>"
    ++ "<p><strong>Drop:</strong> drop [object]</p>"
    ++ "<p><strong>Inventory:</strong> inventory or i (see what you are carrying)</p>"
    ++ "<p><strong>Talk:</strong> talk to [character]</p>"
    ++ "<p><strong>Help:</strong> help (this list)</p>") "narration"])

/-- `execute(command)`: dispatch the parsed command to its handler. -/
def execute (g : Game) (command : Command) : Option (Game × List Line) :=
  match command.verb with
  | none =>
    some (g, [Line.msg "I don't understand. Type <strong>help</strong> for a list of commands."
      "error"])
  | some verb =>
    match verb with
    | "go" => doGo g command.noun
    | "north" => doGo g (some verb)
    | "south" => doGo g (some verb)
    | "east" => doGo g (some verb)
    | "west" => doGo g (some verb)
    | "look" => doLook g command.noun
    | "take" => doTake g command.noun
    | "drop" => doDrop g command.noun
    | "inventory" => doInventory g
    | "talk" => doTalk g command.noun
    | "use" => some (doUse g command.noun)
    | "help" => some (doHelp g)
    | _ => some (g, [Line.msg "I don't know how to do that." "error"])

/-- `startGame()`: mark the session started, set the `gameStarted` flag, and
show the opening room as a new arrival. -/
def startGame (g : Game) : Option (Game × List Line) :=
  showRoom { g with
    gameStarted := true,
    state := { g.state with flags := setProp g.state.flags "gameStarted" true } } true

/-- `handleInput()` on a submitted raw string: start the game if not started;
ignore input that trims to empty; while InSequence advance the event;
otherwise echo, parse and execute the command. -/
def handleInput (g : Game) (rawInput : String) : Option (Game × List Line) :=
  let input := strTrim rawInput
  if !g.gameStarted then
    startGame g
  else if input == "" then
    some (g, [])
  else if g.inEvent then
    advanceEvent g
  else
    match execute g (parse g input) with
    | none => none
    | some (g2, lines) => some (g2, Line.playerEcho input :: lines)

/-! ## Specification-side definitions used to state the claims -/

/-- Name matching lifted to a resolved target. -/
def targetMatches (noun : String) : Target → Bool
  | Target.object _ o => matchesNoun o.name noun
  | Target.character _ c => matchesNoun c.name noun

/-- The search order of the spec (§4.2), stated independently of `findTarget`:
build the ordered candidate list — objects present in the current room, then
objects in the player's inventory, then characters present in the current
room — and return the first candidate whose name matches. -/
def findTargetSpec (s : GameState) (room : Room) (noun : String) : Option Target :=
  ((room.objects.filterMap fun id => (s.objects.lookup id).map (Target.object id))
    ++ (s.player.inventory.filterMap fun id => (s.objects.lookup id).map (Target.object id))
    ++ (room.characters.filterMap fun id => (s.characters.lookup id).map (Target.character id))
  ).find? (targetMatches noun)

/-- The location/containment invariant of the data model (§3): an object
identifier is in a room's object list iff the object's `location` is that
room's key, and in the inventory iff its `location` is `"inventory"`; the
inventory holds no duplicate identifiers. -/
def StateInvariant (s : GameState) : Prop :=
  (∀ p ∈ s.objects, ∀ q ∈ s.rooms, (p.1 ∈ q.2.objects ↔ p.2.location = q.1))
  ∧ (∀ p ∈ s.objects, (p.1 ∈ s.player.inventory ↔ p.2.location = "inventory"))
  ∧ s.player.inventory.Nodup

instance (s : GameState) : Decidable (StateInvariant s) := by
  unfold StateInvariant
  infer_instance

/-- A session fragment made of consecutive `showRoom` calls (each boolean is
that call's `isNewRoom` argument), collecting all output. -/
def showRoomSeq (g : Game) : List Bool → Option (Game × List Line)
  | [] => some (g, [])
  | b :: bs =>
    match showRoom g b with
    | none => none
    | some (g1, out1) =>
      match showRoomSeq g1 bs with
      | none => none
      | some (g2, out2) => some (g2, out1 ++ out2)

/-! ## Concrete world fixtures for witnesses and counterexamples -/

/-- A small vocabulary of the shape the engine consumes. -/
def baseVocab : Vocabulary :=
  { articles := ["the", "a", "an"]
    prepositions := ["at", "to", "with", "on", "in"]
    verbs := [("go", ["go", "walk", "move"]), ("look", ["look", "examine"]),
              ("take", ["take", "get", "grab"]), ("drop", ["drop"]),
              ("inventory", ["inventory", "i"]), ("talk", ["talk", "speak"]),
              ("use", ["use"]), ("help", ["help"])] }

/-- A takeable sword sitting in the hall. -/
def swordObj : Obj :=
  { id := "sword", name := "sword", description := "A sword.",
    onExamine := none, onTake := none, canTake := true, location := "hall" }

/-- The hall room containing the sword. -/
def hallRoom : Room :=
  { id := "hall", name := "Hall", description := "A hall.",
    onFirstVisit := none, exits := [], objects := ["sword"],
    characters := [], triggersEvent := none, firstVisit := false }

/-- A started session with the sword on the floor of the hall. -/
def takeGame : Game :=
  { gameData := { vocabulary := baseVocab, events := [] },
    state := { player := { location := "hall", inventory := [] },
               flags := [], rooms := [("hall", hallRoom)],
               characters := [], objects := [("sword", swordObj)] },
    gameStarted := true, eventQueue := [], currentEventIndex := 0, inEvent := false }

/-- A started session where the sword is already held: it is in the
inventory, its location is `"inventory"`, and the hall lists no objects. -/
def retakeGame : Game :=
  { gameData := { vocabulary := baseVocab, events := [] },
    state := { player := { location := "hall", inventory := ["sword"] },
               flags := [],
               rooms := [("hall", { hallRoom with objects := [] })],
               characters := [],
               objects := [("sword", { swordObj with location := "inventory" })] },
    gameStarted := true, eventQueue := [], currentEventIndex := 0, inEvent := false }

/-- A statue that cannot be taken. -/
def statueObj : Obj :=
  { id := "statue", name := "statue", description := "A statue.",
    onExamine := none, onTake := none, canTake := false, location := "plaza" }

/-- A started session with the fixed statue in its room. -/
def statueGame : Game :=
  { gameData := { vocabulary := baseVocab, events := [] },
    state := { player := { location := "plaza", inventory := [] },
               flags := [],
               rooms := [("plaza",
                 { id := "plaza", name := "Plaza", description := "A plaza.",
                   onFirstVisit := none, exits := [], objects := ["statue"],
                   characters := [], triggersEvent := none, firstVisit := false })],
               characters := [],
               objects := [("statue", statueObj)] },
    gameStarted := true, eventQueue := [], currentEventIndex := 0, inEvent := false }

/-- A started session in the middle of a two-step narration sequence. -/
def eventGame : Game :=
  { gameData := { vocabulary := baseVocab,
                  events := [("intro", { sequence := [Step.narration "One",
                                                      Step.narration "Two"] })] },
    state := { player := { location := "hall", inventory := [] },
               flags := [], rooms := [("hall", { hallRoom with objects := [] })],
               characters := [], objects := [] },
    gameStarted := true,
    eventQueue := [Step.narration "One", Step.narration "Two"],
    currentEventIndex := 0, inEvent := true }

/-- An idle started session (no sequence active). -/
def idleGame : Game :=
  { gameData := { vocabulary := baseVocab,
                  events := [("intro", { sequence := [Step.narration "One"] })] },
    state := { player := { location := "hall", inventory := [] },
               flags := [], rooms := [("hall", { hallRoom with objects := [] })],
               characters := [], objects := [] },
    gameStarted := true, eventQueue := [], currentEventIndex := 0, inEvent := false }

/-- A session whose active sequence is about to render a dialogue step naming
a character identifier (`"ghost"`) that no character definition carries. -/
def ghostGame : Game :=
  { gameData := { vocabulary := baseVocab,
                  events := [("haunt", { sequence := [Step.dialogue "ghost" "Boo." none] })] },
    state := { player := { location := "hall", inventory := [] },
               flags := [], rooms := [("hall", { hallRoom with objects := [] })],
               characters := [], objects := [] },
    gameStarted := true,
    eventQueue := [Step.dialogue "ghost" "Boo." none],
    currentEventIndex := 0, inEvent := true }

/-- Two connected rooms for movement: the gate (with a north exit) and the
yard. -/
def gateRoom : Room :=
  { id := "gate", name := "Gate", description := "A gate.",
    onFirstVisit := none, exits := [("north", "yard")], objects := [],
    characters := [], triggersEvent := none, firstVisit := false }

def goGame : Game :=
  { gameData := { vocabulary := baseVocab, events := [] },
    state := { player := { location := "gate", inventory := [] },
               flags := [],
               rooms := [("gate", gateRoom),
                 ("yard",
                 { id := "yard", name := "Yard", description := "A yard.",
                   onFirstVisit := none, exits := [("south", "gate")], objects := [],
                   characters := [], triggersEvent := none, firstVisit := false })],
               characters := [], objects := [] },
    gameStarted := true, eventQueue := [], currentEventIndex := 0, inEvent := false }

/-- A room whose object and character share the noun "guard": used for the
resolution-precedence witness. -/
def keepRoom : Room :=
  { id := "keep", name := "Keep", description := "A keep.",
    onFirstVisit := none, exits := [], objects := ["guard-statue"],
    characters := ["guard"], triggersEvent := none, firstVisit := false }

/-- A statue of a guard whose name collides with the guard character. -/
def guardStatue : Obj :=
  { id := "guard-statue", name := "guard statue",
    description := "A statue of a guard.", onExamine := none,
    onTake := none, canTake := false, location := "keep" }

def collisionGame : Game :=
  { gameData := { vocabulary := baseVocab, events := [] },
    state := { player := { location := "keep", inventory := ["rope"] },
               flags := [],
               rooms := [("keep", keepRoom)],
               characters := [("guard",
                 { id := "guard", name := "guard", description := "A guard.",
                   dialogueDefault := some "Halt!", dialogueParty := none,
                   language := none })],
               objects := [("guard-statue", guardStatue),
                 ("rope",
                 { id := "rope", name := "rope", description := "A rope.",
                   onExamine := none, onTake := none, canTake := true,
                   location := "inventory" })] },
    gameStarted := true, eventQueue := [], currentEventIndex := 0, inEvent := false }

/-- A room with `firstVisit = true` but no first-visit text. -/
def voidGame : Game :=
  { gameData := { vocabulary := baseVocab, events := [] },
    state := { player := { location := "void", inventory := [] },
               flags := [],
               rooms := [("void",
                 { id := "void", name := "Void", description := "An empty void.",
                   onFirstVisit := none, exits := [], objects := [],
                   characters := [], triggersEvent := none, firstVisit := true })],
               characters := [], objects := [] },
    gameStarted := true, eventQueue := [], currentEventIndex := 0, inEvent := false }

/-- A room with `firstVisit = true` and a first-visit text. -/
def gladeRoom : Room :=
  { id := "glade", name := "Glade", description := "A quiet glade.",
    onFirstVisit := some "Sunlight greets you.", exits := [],
    objects := [], characters := [], triggersEvent := none, firstVisit := true }

/-- A started session standing in the glade before its first display. -/
def gladeGame : Game :=
  { gameData := { vocabulary := baseVocab, events := [] },
    state := { player := { location := "glade", inventory := [] },
               flags := [("visitedGlade", false)],
               rooms := [("glade", gladeRoom)],
               characters := [], objects := [] },
    gameStarted := true, eventQueue := [], currentEventIndex := 0, inEvent := false }

/-- A vocabulary in which a direction word ("west") is also a verb synonym,
to exercise the verb-scan-before-direction rule. -/
def trickVocab : Vocabulary :=
  { articles := ["the"], prepositions := ["at"],
    verbs := [("look", ["west", "look"]), ("go", ["go"])] }

def trickGame : Game :=
  { gameData := { vocabulary := trickVocab, events := [] },
    state := { player := { location := "hall", inventory := [] },
               flags := [], rooms := [("hall", hallRoom)],
               characters := [], objects := [] },
    gameStarted := true, eventQueue := [], currentEventIndex := 0, inEvent := false }

/-! ## Helper lemmas -/

theorem lookup_mem {β : Type} {k : String} {v : β} :
    ∀ {l : List (String × β)}, l.lookup k = some v → (k, v) ∈ l := by
  intro l
  induction l with
  | nil => intro h; simp [List.lookup] at h
  | cons p t ih =>
    obtain ⟨a, b⟩ := p
    intro h
    rw [List.lookup_cons] at h
    by_cases hk : k = a
    · subst hk
      simp at h
      simp [h]
    · have hne : (k == a) = false := beq_eq_false_iff_ne.mpr hk
      rw [hne] at h
      exact List.mem_cons_of_mem _ (ih h)

theorem lookup_updateAssoc_self {β : Type} {l : List (String × β)} {k : String}
    (v : β) (h : (l.lookup k).isSome) :
    (updateAssoc l k v).lookup k = some v := by
  induction l with
  | nil => simp [List.lookup] at h
  | cons p t ih =>
    obtain ⟨a, b⟩ := p
    by_cases hk : k = a
    · subst hk
      simp [updateAssoc, List.lookup_cons]
    · have hne : (k == a) = false := beq_eq_false_iff_ne.mpr hk
      have hne2 : ¬(a = k) := fun hh => hk hh.symm
      rw [List.lookup_cons, hne] at h
      simp only [updateAssoc, List.map_cons, if_neg hne2, List.lookup_cons, hne]
      exact ih h

theorem triggerEvent_state (g : Game) (eid : String) :
    (triggerEvent g eid).state = g.state := by
  unfold triggerEvent
  rcases h : g.gameData.events.lookup eid with _ | ev <;> simp [h]

theorem showRoom_flag_false (g : Game) (b : Bool) (room : Room)
    (hroom : g.state.rooms.lookup g.state.player.location = some room)
    (hfv : room.firstVisit = false) :
    ∃ g2 out,
      showRoom g b = some (g2, out)
      ∧ g2.state.player = g.state.player
      ∧ (g2.state.rooms.lookup g.state.player.location).map Room.firstVisit = some false
      ∧ (g2.state.rooms.lookup g.state.player.location).map Room.description
          = some room.description
      ∧ out.get? 1 = some (Line.msg room.description "narration") := by
  have hsome : (g.state.rooms.lookup g.state.player.location).isSome := by
    rw [hroom]; rfl
  have hbranch : (room.firstVisit && strTruthy room.onFirstVisit) = false := by
    rw [hfv]; rfl
  unfold showRoom
  rw [hroom]
  simp only [hbranch, Bool.false_eq_true, if_false]
  refine ⟨_, _, rfl, ?_, ?_, ?_, ?_⟩
  · split
    · rw [triggerEvent_state]
    · rfl
  · split
    · rw [triggerEvent_state]
      show ((updateAssoc g.state.rooms g.state.player.location _).lookup
        g.state.player.location).map Room.firstVisit = some false
      rw [lookup_updateAssoc_self _ hsome]
      simp [hfv]
    · show ((updateAssoc g.state.rooms g.state.player.location _).lookup
        g.state.player.location).map Room.firstVisit = some false
      rw [lookup_updateAssoc_self _ hsome]
      simp [hfv]
  · split
    · rw [triggerEvent_state]
      show ((updateAssoc g.state.rooms g.state.player.location _).lookup
        g.state.player.location).map Room.description = some room.description
      rw [lookup_updateAssoc_self _ hsome]
      simp
    · show ((updateAssoc g.state.rooms g.state.player.location _).lookup
        g.state.player.location).map Room.description = some room.description
      rw [lookup_updateAssoc_self _ hsome]
      simp
  · rfl

theorem showRoom_flag_true (g : Game) (b : Bool) (room : Room)
    (hroom : g.state.rooms.lookup g.state.player.location = some room)
    (hfv : room.firstVisit = true)
    (htext : strTruthy room.onFirstVisit = true) :
    ∃ g2 out,
      showRoom g b = some (g2, out)
      ∧ g2.state.player = g.state.player
      ∧ (g2.state.rooms.lookup g.state.player.location).map Room.firstVisit = some false
      ∧ (g2.state.rooms.lookup g.state.player.location).map Room.description
          = some room.description
      ∧ out.get? 1 = some (Line.msg (room.onFirstVisit.getD "") "narration") := by
  have hsome : (g.state.rooms.lookup g.state.player.location).isSome := by
    rw [hroom]; rfl
  have hbranch : (room.firstVisit && strTruthy room.onFirstVisit) = true := by
    rw [hfv, htext]; rfl
  unfold showRoom
  rw [hroom]
  simp only [hbranch, eq_self_iff_true, if_true]
  refine ⟨_, _, rfl, ?_, ?_, ?_, ?_⟩
  · split
    · rw [triggerEvent_state]
    · rfl
  · split
    · rw [triggerEvent_state]
      show ((updateAssoc g.state.rooms g.state.player.location _).lookup
        g.state.player.location).map Room.firstVisit = some false
      rw [lookup_updateAssoc_self _ hsome]
      rfl
    · show ((updateAssoc g.state.rooms g.state.player.location _).lookup
        g.state.player.location).map Room.firstVisit = some false
      rw [lookup_updateAssoc_self _ hsome]
      rfl
  · split
    · rw [triggerEvent_state]
      show ((updateAssoc g.state.rooms g.state.player.location _).lookup
        g.state.player.location).map Room.description = some room.description
      rw [lookup_updateAssoc_self _ hsome]
      rfl
    · show ((updateAssoc g.state.rooms g.state.player.location _).lookup
        g.state.player.location).map Room.description = some room.description
      rw [lookup_updateAssoc_self _ hsome]
      rfl
  · rfl

theorem showRoomSeq_flag_false (bs : List Bool) :
    ∀ (g : Game) (room : Room),
      g.state.rooms.lookup g.state.player.location = some room →
      room.firstVisit = false →
      ∃ g2 out,
        showRoomSeq g bs = some (g2, out)
        ∧ (g2.state.rooms.lookup g2.state.player.location).map Room.firstVisit = some false
        ∧ (g2.state.rooms.lookup g2.state.player.location).map Room.description
            = some room.description := by
  induction bs with
  | nil =>
    intro g room hroom hfv
    exact ⟨g, [], rfl, by rw [hroom]; simp [hfv], by rw [hroom]; rfl⟩
  | cons b bs ih =>
    intro g room hroom hfv
    obtain ⟨g1, out1, hshow, hplayer, hflag, hdesc, _⟩ :=
      showRoom_flag_false g b room hroom hfv
    rcases hlk : g1.state.rooms.lookup g.state.player.location with _ | room1
    · rw [hlk] at hflag; cases hflag
    · rw [hlk] at hflag hdesc
      have hfv1 : room1.firstVisit = false := by simpa using hflag
      have hdesc1 : room1.description = room.description := by simpa using hdesc
      have hroom1 : g1.state.rooms.lookup g1.state.player.location = some room1 := by
        rw [hplayer]; exact hlk
      obtain ⟨g2, out2, hseq, hflag2, hdesc2⟩ := ih g1 room1 hroom1 hfv1
      refine ⟨g2, out1 ++ out2, ?_, hflag2, ?_⟩
      · show showRoomSeq g (b :: bs) = _
        unfold showRoomSeq
        simp only [hshow, hseq]
      · rw [hdesc2, hdesc1]

theorem normalizeDir_ne {d : String} (hd : d ≠ "") : normalizeDir d ≠ "" := by
  unfold normalizeDir
  split
  · decide
  · split
    · decide
    · split
      · decide
      · split
        · decide
        · exact hd

theorem showRoom_total (g : Game) (b : Bool) (room : Room)
    (hroom : g.state.rooms.lookup g.state.player.location = some room) :
    ∃ g2 out, showRoom g b = some (g2, out)
      ∧ g2.state.player.location = g.state.player.location := by
  unfold showRoom
  rw [hroom]
  refine ⟨_, _, rfl, ?_⟩
  split <;> split <;> simp [triggerEvent_state]

theorem findSome?_filterMap_find? {α β : Type} (f : α → Option β) (p : β → Bool) :
    ∀ (l : List α),
      (l.findSome? fun a => match f a with
        | some b => if p b then some b else none
        | none => none)
      = (l.filterMap f).find? p := by
  intro l
  induction l with
  | nil => rfl
  | cons a t ih =>
    rcases hfa : f a with _ | b
    · simp only [List.findSome?_cons, List.filterMap_cons, hfa, ih]
    · by_cases hb : p b = true
      · simp only [List.findSome?_cons, List.filterMap_cons, hfa, hb, if_true,
          List.find?_cons_of_pos]
      · have hb2 : p b = false := Bool.eq_false_iff.mpr hb
        simp only [List.findSome?_cons, List.filterMap_cons, hfa, hb2,
          Bool.false_eq_true, if_false, ih]
        rw [List.find?_cons_of_neg]
        simp [hb2]

/-! ## Claim theorems -/

/-- C1: the claim says that when `take` resolves its noun to a target that is
not an object present in the current room's object list — in particular an
inventory-resident object — `doTake` emits the "you don't see that here"
error and leaves the world state unchanged.  The code does not: in
`retakeGame` the sword is inventory-resident (location `"inventory"`, absent
from the hall's object list), yet `doTake` re-takes it, appending a duplicate
identifier to the inventory and printing the narration-kind take message
instead of any error. -/
theorem doTake_retakes_inventory_object :
    (doTake retakeGame (some "sword")).map (fun r => r.1.state.player.inventory)
      = some ["sword", "sword"]
    ∧ (doTake retakeGame (some "sword")).map (fun r => r.2)
      = some [Line.msg "You take the sword." "narration"]
    ∧ findTarget retakeGame.state "sword"
      = some (some (Target.object "sword" { swordObj with location := "inventory" })) := by
  exact ⟨rfl, rfl, rfl⟩

/-- C2: the claim says every `doTake` preserves the location/containment
invariant and inventory duplicate-freedom.  Starting from `takeGame`, where
the invariant holds, taking the sword once preserves it, but a second
`take sword` (resolving the now inventory-resident sword) appends a duplicate
identifier, so the resulting state violates the invariant. -/
theorem doTake_breaks_inventory_invariant :
    StateInvariant takeGame.state
    ∧ ((doTake takeGame (some "sword")).map
        (fun r => decide (StateInvariant r.1.state)) = some true)
    ∧ (((doTake takeGame (some "sword")).bind (fun r => doTake r.1 (some "sword"))).map
        (fun r => decide (StateInvariant r.1.state)) = some false)
    ∧ (((doTake takeGame (some "sword")).bind (fun r => doTake r.1 (some "sword"))).map
        (fun r => r.1.state.player.inventory) = some ["sword", "sword"]) := by
  refine ⟨by decide, by decide, by decide, by decide⟩

/-- C3: the claim says every raw input submitted while InSequence — including
the empty string — makes `handleInput` call `advanceEvent`.  The code returns
early on input that trims to empty, before the InSequence check: in
`eventGame` (mid-sequence, game started) the empty submission leaves the
state untouched and renders nothing, whereas `advanceEvent` would have
rendered the first step and moved the cursor; a nonempty submission (the
valid command "look") is indeed redirected to `advanceEvent` unparsed. -/
theorem handleInput_ignores_empty_during_sequence :
    eventGame.inEvent = true
    ∧ eventGame.gameStarted = true
    ∧ handleInput eventGame "" = some (eventGame, [])
    ∧ advanceEvent eventGame =
        some ({ eventGame with currentEventIndex := 1 },
          [Line.msg "One" "narration",
           Line.msg "<em class=\"continue-prompt\">(Press Enter to continue...)</em>"
             "narration"])
    ∧ handleInput eventGame "look" = advanceEvent eventGame
    ∧ handleInput eventGame "   " = some (eventGame, []) := by
  exact ⟨rfl, rfl, rfl, rfl, rfl, rfl⟩

/-- C4: `triggerEvent` on an identifier with no definition really does
nothing (the sequencer stays Idle — first conjuncts, on the idle session),
but `advanceEvent` on a dialogue step naming a nonexistent character does not
skip the step: it reads `char.name` of `undefined`, the modelled crash
(`none`), so the claim's second half fails on the code. -/
theorem triggerEvent_failsafe_advanceEvent_crash :
    triggerEvent idleGame "no-such-event" = idleGame
    ∧ idleGame.inEvent = false
    ∧ ghostGame.state.characters.lookup "ghost" = none
    ∧ ghostGame.eventQueue = [Step.dialogue "ghost" "Boo." none]
    ∧ advanceEvent ghostGame = none := by
  exact ⟨rfl, rfl, rfl, rfl, rfl⟩

/-- C6 counterexample: the blocked-direction message and the not-permitted
take message are emitted with kind `"narration"`, not `"error"`: going south
from the hall (no such exit) and taking the fixed statue both produce a
single narration-kind line, refuting the claim that every recoverable user
error line has kind `"error"`. -/
theorem blocked_and_forbidden_are_narration_kind :
    (doGo takeGame (some "south")).map (fun r => r.2)
      = some [Line.msg "You can't go that way." "narration"]
    ∧ (doTake statueGame (some "statue")).map (fun r => r.2)
      = some [Line.msg "You can't take that." "narration"]
    ∧ lineKind (Line.msg "You can't go that way." "narration") ≠ "error"
    ∧ lineKind (Line.msg "You can't take that." "narration") ≠ "error" := by
  exact ⟨rfl, rfl, by decide, by decide⟩

/-- C8 counterexample: in `voidGame` the only room has `firstVisit = true`
and no `onFirstVisit` text; after its first display the flag is still `true`
(the display showed the regular description), so the flag does not transition
true to false on the first display of every room. -/
theorem firstVisit_not_cleared_without_text :
    (voidGame.state.rooms.lookup "void").map Room.firstVisit = some true
    ∧ (showRoom voidGame true).map
        (fun r => (r.1.state.rooms.lookup "void").map Room.firstVisit)
      = some (some true)
    ∧ (showRoom voidGame true).map (fun r => r.2[1]?)
      = some (some (Line.msg "An empty void." "narration")) := by
  exact ⟨rfl, rfl, rfl⟩

/-- C5: movement is exit-gated.  In a reachable state (current room present,
exit targets nonempty and naming existing rooms), `doGo` on a direction word
leaves the player and the whole state unchanged and emits the "can't go that
way" message when the normalized direction has no exit, and sets
`player.location` to the exit's target room identifier when it has one. -/
theorem doGo_exit_gated (g : Game) (d : String) (room : Room)
    (hroom : g.state.rooms.lookup g.state.player.location = some room)
    (hd : d ≠ "")
    (hexits : ∀ p ∈ room.exits, p.2 ≠ "" ∧ (g.state.rooms.lookup p.2).isSome) :
    (room.exits.lookup (normalizeDir d) = none →
      doGo g (some d) = some (g, [Line.msg "You can't go that way." "narration"]))
    ∧ (∀ tgt, room.exits.lookup (normalizeDir d) = some tgt →
        ∃ g2 out, doGo g (some d) = some (g2, out)
          ∧ g2.state.player.location = tgt) := by
  have hnd : normalizeDir d ≠ "" := normalizeDir_ne hd
  have ht : strTruthy (some (normalizeDir d)) = true := by
    simp [strTruthy, hnd]
  have hmap : (some d).map normalizeDir = some (normalizeDir d) := rfl
  constructor
  · intro hnone
    unfold doGo
    simp only [hmap, ht, Bool.not_true, Bool.false_eq_true, if_false, hroom,
      Option.getD_some, hnone]
    rfl
  · intro tgt hsome
    have htgt : tgt ≠ "" := ((hexits _ (lookup_mem hsome)).1)
    have htgtroom : (g.state.rooms.lookup tgt).isSome :=
      ((hexits _ (lookup_mem hsome)).2)
    rcases Option.isSome_iff_exists.mp htgtroom with ⟨room2, hroom2⟩
    have httgt : strTruthy (some tgt) = true := by simp [strTruthy, htgt]
    obtain ⟨g2, out, hshow, hloc⟩ :=
      showRoom_total { g with state :=
        { g.state with player := { g.state.player with location := tgt } } } true room2 hroom2
    refine ⟨g2, out, ?_, hloc⟩
    unfold doGo
    simp only [hmap, ht, Bool.not_true, Bool.false_eq_true, if_false, hroom,
      Option.getD_some, hsome, httgt]
    exact hshow

/-- C5 witness: in `goGame`, going west from the gate is blocked with the
message and no movement, and going "n" (normalized to north) moves the player
to the yard. -/
theorem doGo_exit_gated_witness :
    doGo goGame (some "w") = some (goGame, [Line.msg "You can't go that way." "narration"])
    ∧ ∃ g2 out, doGo goGame (some "n") = some (g2, out)
      ∧ g2.state.player.location = "yard" :=
  ⟨(doGo_exit_gated goGame "w" gateRoom rfl (by decide) (by decide)).1 rfl,
   (doGo_exit_gated goGame "n" gateRoom rfl (by decide) (by decide)).2 "yard" rfl⟩

/-- C8 (amended): for a room whose `onFirstVisit` text is present and
nonempty and whose `firstVisit` flag is initially true, the first display
prints the first-visit text (in the description slot, the second emitted
line) and clears the flag; the flag remains false across any further
sequence of displays; and every display of a room whose flag is already
false prints the regular description in that slot and keeps the flag false —
so the flag transitions true to false exactly once and the text shows
exactly once.  (The counterexample shows the unamended claim fails for rooms
without first-visit text, whose flag is never cleared.) -/
theorem firstVisit_text_shown_once (g : Game) (b : Bool) (bs : List Bool) (room : Room)
    (hroom : g.state.rooms.lookup g.state.player.location = some room)
    (hfv : room.firstVisit = true)
    (htext : strTruthy room.onFirstVisit = true) :
    (∃ g1 out1 g2 out2,
        showRoom g b = some (g1, out1)
        ∧ out1.get? 1 = some (Line.msg (room.onFirstVisit.getD "") "narration")
        ∧ (g1.state.rooms.lookup g1.state.player.location).map Room.firstVisit = some false
        ∧ showRoomSeq g1 bs = some (g2, out2)
        ∧ (g2.state.rooms.lookup g2.state.player.location).map Room.firstVisit = some false)
    ∧ (∀ (h : Game) (c : Bool) (roomh : Room),
        h.state.rooms.lookup h.state.player.location = some roomh →
        roomh.firstVisit = false →
        ∃ g3 out3, showRoom h c = some (g3, out3)
          ∧ out3.get? 1 = some (Line.msg roomh.description "narration")
          ∧ (g3.state.rooms.lookup g3.state.player.location).map Room.firstVisit
              = some false) := by
  constructor
  · obtain ⟨g1, out1, hshow, hplayer, hflag, hdesc, hline⟩ :=
      showRoom_flag_true g b room hroom hfv htext
    rcases hlk : g1.state.rooms.lookup g.state.player.location with _ | room1
    · rw [hlk] at hflag; cases hflag
    · rw [hlk] at hflag
      have hfv1 : room1.firstVisit = false := by simpa using hflag
      have hroom1 : g1.state.rooms.lookup g1.state.player.location = some room1 := by
        rw [hplayer]; exact hlk
      obtain ⟨g2, out2, hseq, hflag2, _⟩ := showRoomSeq_flag_false bs g1 room1 hroom1 hfv1
      exact ⟨g1, out1, g2, out2, hshow, hline, by simp [hroom1, hfv1], hseq, hflag2⟩
  · intro h c roomh hh hfvh
    obtain ⟨g3, out3, hshow3, hplayer3, hflag3, _, hline3⟩ :=
      showRoom_flag_false h c roomh hh hfvh
    refine ⟨g3, out3, hshow3, hline3, ?_⟩
    rw [hplayer3]
    exact hflag3

/-- C8 witness: the amended theorem applied to the glade, whose first-visit
text is present, over a session of three displays. -/
theorem firstVisit_text_shown_once_witness :
    (∃ g1 out1 g2 out2,
        showRoom gladeGame true = some (g1, out1)
        ∧ out1.get? 1 = some (Line.msg (gladeRoom.onFirstVisit.getD "") "narration")
        ∧ (g1.state.rooms.lookup g1.state.player.location).map Room.firstVisit = some false
        ∧ showRoomSeq g1 [false, true] = some (g2, out2)
        ∧ (g2.state.rooms.lookup g2.state.player.location).map Room.firstVisit = some false)
    ∧ (∀ (h : Game) (c : Bool) (roomh : Room),
        h.state.rooms.lookup h.state.player.location = some roomh →
        roomh.firstVisit = false →
        ∃ g3 out3, showRoom h c = some (g3, out3)
          ∧ out3.get? 1 = some (Line.msg roomh.description "narration")
          ∧ (g3.state.rooms.lookup g3.state.player.location).map Room.firstVisit
              = some false) :=
  firstVisit_text_shown_once gladeGame true [false, true] gladeRoom rfl rfl rfl

/-- C7: `findTarget` returns the first match of the ordered candidate list —
objects listed in the current room, then objects in the player's inventory,
then characters listed in the current room (`findTargetSpec`) — so a room
object beats a room character sharing the noun, and `findInInventory`
applies the same name matching restricted to the inventory list. -/
theorem findTarget_search_order (s : GameState) (noun : String) (room : Room)
    (hroom : s.rooms.lookup s.player.location = some room) :
    findTarget s noun = some (findTargetSpec s room noun)
    ∧ findInInventory s noun = s.player.inventory.find? (fun id =>
        match s.objects.lookup id with
        | some o => matchesNoun o.name noun
        | none => false)
    ∧ ((∃ idO o, idO ∈ room.objects ∧ s.objects.lookup idO = some o
          ∧ matchesNoun o.name noun = true)
        → ∃ k obj, findTarget s noun = some (some (Target.object k obj))) := by
  have hobjfun : ∀ (ids : List String),
      (ids.findSome? fun objId =>
        match s.objects.lookup objId with
        | some obj =>
          if matchesNoun obj.name noun then some (Target.object objId obj) else none
        | none => none)
      = (ids.filterMap fun id => (s.objects.lookup id).map (Target.object id)).find?
          (targetMatches noun) := by
    intro ids
    rw [← findSome?_filterMap_find?]
    congr 1
    funext objId
    cases h : s.objects.lookup objId <;> simp [h, targetMatches]
  have hcharfun :
      (room.characters.findSome? fun charId =>
        match s.characters.lookup charId with
        | some ch =>
          if matchesNoun ch.name noun then some (Target.character charId ch) else none
        | none => none)
      = (room.characters.filterMap fun id =>
          (s.characters.lookup id).map (Target.character id)).find?
          (targetMatches noun) := by
    rw [← findSome?_filterMap_find?]
    congr 1
    funext charId
    cases h : s.characters.lookup charId <;> simp [h, targetMatches]
  have h1 : findTarget s noun = some (findTargetSpec s room noun) := by
    unfold findTarget findTargetSpec
    simp only [hroom]
    rw [List.find?_append, List.find?_append]
    rw [← hobjfun room.objects, ← hobjfun s.player.inventory, ← hcharfun]
    rcases (room.objects.findSome? fun objId =>
        match s.objects.lookup objId with
        | some obj =>
          if matchesNoun obj.name noun then some (Target.object objId obj) else none
        | none => none) with _ | tA
    · rcases (s.player.inventory.findSome? fun objId =>
          match s.objects.lookup objId with
          | some obj =>
            if matchesNoun obj.name noun then some (Target.object objId obj) else none
          | none => none) with _ | tB
      · rcases (room.characters.findSome? fun charId =>
            match s.characters.lookup charId with
            | some ch =>
              if matchesNoun ch.name noun then some (Target.character charId ch) else none
            | none => none) with _ | tC
        · rfl
        · rfl
      · rfl
    · rfl
  refine ⟨h1, ?_, ?_⟩
  · unfold findInInventory
    generalize s.player.inventory = l
    induction l with
    | nil => rfl
    | cons a t ih =>
      cases h : s.objects.lookup a with
      | none =>
        simp only [List.findSome?_cons, h, ih]
        rw [List.find?_cons_of_neg]
        simp [h]
      | some o =>
        by_cases hm : matchesNoun o.name noun = true
        · simp only [List.findSome?_cons, h, hm, if_true]
          rw [List.find?_cons_of_pos]
          simp [h, hm]
        · have hm2 : matchesNoun o.name noun = false := Bool.eq_false_iff.mpr hm
          simp only [List.findSome?_cons, h, hm2, Bool.false_eq_true, if_false, ih]
          rw [List.find?_cons_of_neg]
          simp [h, hm2]
  · rintro ⟨idO, o, hmem, hlk, hmatch⟩
    have hmemA : Target.object idO o ∈ (room.objects.filterMap fun id =>
        (s.objects.lookup id).map (Target.object id)) := by
      rw [List.mem_filterMap]
      exact ⟨idO, hmem, by rw [hlk]; rfl⟩
    have hA : ((room.objects.filterMap fun id =>
        (s.objects.lookup id).map (Target.object id)).find? (targetMatches noun)).isSome := by
      rw [List.find?_isSome]
      exact ⟨_, hmemA, by simpa [targetMatches] using hmatch⟩
    rcases Option.isSome_iff_exists.mp hA with ⟨t, hAt⟩
    have hts : ∃ k obj, t = Target.object k obj := by
      have hmt := List.mem_of_find?_eq_some hAt
      rw [List.mem_filterMap] at hmt
      rcases hmt with ⟨a, _, hfa⟩
      rcases hlk2 : s.objects.lookup a with _ | o2
      · rw [hlk2] at hfa; cases hfa
      · rw [hlk2] at hfa
        refine ⟨a, o2, ?_⟩
        have : some (Target.object a o2) = some t := hfa
        exact (Option.some.inj this).symm
    rcases hts with ⟨k, obj, rfl⟩
    refine ⟨k, obj, ?_⟩
    rw [h1]
    unfold findTargetSpec
    rw [List.find?_append, List.find?_append, hAt]
    rfl

/-- C7 witness: in the keep, the noun "guard" matches both the guard statue
(a room object) and the guard (a room character); resolution returns an
object, and the inventory-only resolver is the first name match over the
inventory list. -/
theorem findTarget_search_order_witness :
    (∃ k obj, findTarget collisionGame.state "guard"
        = some (some (Target.object k obj)))
    ∧ findInInventory collisionGame.state "rope"
        = collisionGame.state.player.inventory.find? (fun id =>
            match collisionGame.state.objects.lookup id with
            | some o => matchesNoun o.name "rope"
            | none => false) :=
  ⟨(findTarget_search_order collisionGame.state "guard" keepRoom rfl).2.2
      ⟨"guard-statue", guardStatue, by decide, rfl, by decide⟩,
   (findTarget_search_order collisionGame.state "rope" keepRoom rfl).2.1⟩

/-- C9: the verb scan runs before the direction check: whenever some token
matches a verb synonym (first token, first verb in definition order, as
`scanVerb` reports), `parse` returns that verb with the noun built from the
tokens after it — even when the token is a direction word — and only when no
token matches any synonym and the first filtered token is a direction word
does `parse` synthesize verb "go" with no consumed index, so the whole
filtered phrase (minus prepositions) becomes the noun. -/
theorem parse_verb_before_direction (g : Game) (input : String) (vk : String) (i : Nat) :
    (scanVerb g.gameData.vocabulary.verbs (filteredWords g.gameData.vocabulary input) 0
        = some (vk, i) →
      parse g input = Command.mk (some vk)
        (nounFrom g.gameData.vocabulary
          ((filteredWords g.gameData.vocabulary input).drop (i + 1)))
        none input)
    ∧ (scanVerb g.gameData.vocabulary.verbs (filteredWords g.gameData.vocabulary input) 0
        = none →
      directions.contains ((filteredWords g.gameData.vocabulary input).headD "") = true →
      parse g input = Command.mk (some "go")
        (nounFrom g.gameData.vocabulary (filteredWords g.gameData.vocabulary input))
        none input) := by
  constructor
  · intro hscan
    have hne : (filteredWords g.gameData.vocabulary input).isEmpty = false := by
      rcases h : filteredWords g.gameData.vocabulary input with _ | ⟨a, t⟩
      · rw [h] at hscan; cases hscan
      · rfl
    unfold parse
    simp only [hne, Bool.false_eq_true, if_false, hscan]
  · intro hscan hdir
    have hne : (filteredWords g.gameData.vocabulary input).isEmpty = false := by
      rcases h : filteredWords g.gameData.vocabulary input with _ | ⟨a, t⟩
      · rw [h] at hdir
        exact absurd hdir (by decide)
      · rfl
    unfold parse
    simp only [hne, Bool.false_eq_true, if_false, hscan, hdir, if_true]

/-- C9 witness: with a vocabulary where "west" is a synonym of "look", the
bare input "west" parses as the verb "look" (not as movement); with the base
vocabulary, "north gate" has no verb token and parses as "go" with the whole
phrase (direction word included) as the noun. -/
theorem parse_verb_before_direction_witness :
    parse trickGame "west"
      = { verb := some "look", noun := none, indirect := none, raw := "west" }
    ∧ parse takeGame "north gate"
      = { verb := some "go", noun := some "north gate", indirect := none,
          raw := "north gate" } := by
  constructor
  · rw [(parse_verb_before_direction trickGame "west" "look" 0).1 rfl]
    rfl
  · rw [(parse_verb_before_direction takeGame "north gate" "go" 0).2 rfl (by decide)]
    rfl

/-- C10: `parse` reads only the static vocabulary from the instance: two
sessions sharing a vocabulary parse every raw input to the same command,
whatever their player, inventory, flags, rooms or sequencer state. -/
theorem parse_ignores_mutable_state (g1 g2 : Game) (input : String)
    (h : g1.gameData.vocabulary = g2.gameData.vocabulary) :
    parse g1 input = parse g2 input := by
  unfold parse
  rw [h]

/-- C10 witness: `takeGame` and `retakeGame` share the vocabulary but differ
in inventory, object locations and room contents; both parse the same
command identically. -/
theorem parse_ignores_mutable_state_witness :
    parse takeGame "take the sword" = parse retakeGame "take the sword" :=
  parse_ignores_mutable_state takeGame retakeGame "take the sword" rfl

/-- C6 (amended): recoverable user errors are reported as display lines and
the interpreter continues, but their kinds differ: missing-noun
("Take what?"), target-not-found ("You don't see that here.") and
unknown-command lines carry kind "error", while the blocked-direction
message ("You can't go that way.") and the not-permitted take
("You can't take that.") are emitted with kind "narration" (as the
counterexample shows, refuting the unamended claim). -/
theorem recoverable_error_kinds (g : Game) (d noun : String) (room : Room)
    (key : String) (obj : Obj) :
    (g.state.rooms.lookup g.state.player.location = some room → d ≠ "" →
      room.exits.lookup (normalizeDir d) = none →
      doGo g (some d) = some (g, [Line.msg "You can't go that way." "narration"]))
    ∧ (noun ≠ "" → findTarget g.state noun = some (some (Target.object key obj)) →
        obj.canTake = false →
        doTake g (some noun) = some (g, [Line.msg "You can't take that." "narration"]))
    ∧ doTake g none = some (g, [Line.msg "Take what?" "error"])
    ∧ (noun ≠ "" → findTarget g.state noun = some none →
        doTake g (some noun) = some (g, [Line.msg "You don't see that here." "error"]))
    ∧ execute g (Command.mk none none none "")
        = some (g,
          [Line.msg "I don't understand. Type <strong>help</strong> for a list of commands."
            "error"]) := by
  refine ⟨?_, ?_, rfl, ?_, rfl⟩
  · intro hroom hd hnone
    have hmap : (some d).map normalizeDir = some (normalizeDir d) := rfl
    have ht : strTruthy (some (normalizeDir d)) = true := by
      simp [strTruthy, normalizeDir_ne hd]
    unfold doGo
    simp only [hmap, ht, Bool.not_true, Bool.false_eq_true, if_false, hroom,
      Option.getD_some, hnone]
    rfl
  · intro hn htarget hcan
    have ht : strTruthy (some noun) = true := by simp [strTruthy, hn]
    unfold doTake
    simp only [ht, Bool.not_true, Bool.false_eq_true, if_false, Option.getD_some,
      htarget, hcan]
    rfl
  · intro hn htarget
    have ht : strTruthy (some noun) = true := by simp [strTruthy, hn]
    unfold doTake
    simp only [ht, Bool.not_true, Bool.false_eq_true, if_false, Option.getD_some, htarget]

/-- C6 witness: the amended kinds at concrete states — a blocked direction
and the fixed statue produce narration-kind lines, while a missing noun, an
unresolved noun and an unknown command produce error-kind lines. -/
theorem recoverable_error_kinds_witness :
    doGo takeGame (some "north")
      = some (takeGame, [Line.msg "You can't go that way." "narration"])
    ∧ doTake statueGame (some "statue")
      = some (statueGame, [Line.msg "You can't take that." "narration"])
    ∧ doTake takeGame none = some (takeGame, [Line.msg "Take what?" "error"])
    ∧ doTake takeGame (some "shield")
      = some (takeGame, [Line.msg "You don't see that here." "error"])
    ∧ execute takeGame (Command.mk none none none "")
      = some (takeGame,
          [Line.msg "I don't understand. Type <strong>help</strong> for a list of commands."
            "error"]) :=
  ⟨(recoverable_error_kinds takeGame "north" "x" hallRoom "" statueObj).1 rfl
      (by decide) rfl,
   (recoverable_error_kinds statueGame "x" "statue" hallRoom "statue" statueObj).2.1
      (by decide) rfl rfl,
   (recoverable_error_kinds takeGame "x" "x" hallRoom "" statueObj).2.2.1,
   (recoverable_error_kinds takeGame "x" "shield" hallRoom "" statueObj).2.2.2.1
      (by decide) rfl,
   (recoverable_error_kinds takeGame "x" "x" hallRoom "" statueObj).2.2.2.2⟩

end Mugard
